import Mathlib

/-!
Verification of the Joybait backend (src/main.py, src/schemas.py).

The embedding translates the handlers of main.py into pure Lean functions:
the Mongo collections become lists of schema-conformant documents carried in
an explicit `DB` state, `datetime.now(timezone.utc)` becomes an explicit
`now : Datetime` parameter, and `raise HTTPException(...)` becomes
`Except.error`.  Python integers are `Int`, Python `Optional` is `Option`.
-/

namespace Joybait

/-- A UTC calendar date (year, month, day), as carried by Python
`datetime.date`.  The handlers obtain it via `datetime.now(timezone.utc)`
and `.date()`. -/
structure Date where
  year : Nat
  month : Nat
  day : Nat
deriving DecidableEq, Repr

/-- Cumulative day count before each month in a non-leap year
(CPython `_DAYS_BEFORE_MONTH`, indexed by month 1..12). -/
def daysBeforeMonthTable : Nat → Nat
  | 1 => 0
  | 2 => 31
  | 3 => 59
  | 4 => 90
  | 5 => 120
  | 6 => 151
  | 7 => 181
  | 8 => 212
  | 9 => 243
  | 10 => 273
  | 11 => 304
  | 12 => 334
  | _ => 0

/-- Gregorian leap-year test (CPython `_is_leap`). -/
def isLeapYear (y : Nat) : Bool :=
  y % 4 == 0 && (y % 100 != 0 || y % 400 == 0)

/-- Number of days before January 1st of the given year, counting from the
proleptic-Gregorian epoch 0001-01-01 (CPython `_days_before_year`). -/
def daysBeforeYear (year : Nat) : Nat :=
  let y := year - 1
  y * 365 + y / 4 - y / 100 + y / 400

/-- Number of days in the given year preceding the first of the given month
(CPython `_days_before_month`). -/
def daysBeforeMonth (y m : Nat) : Nat :=
  daysBeforeMonthTable m + (if 2 < m && isLeapYear y then 1 else 0)

/-- Proleptic-Gregorian ordinal of a date, exactly as Python
`date.toordinal()` (and `datetime.toordinal()`, which ignores the time of
day): day 1 is 0001-01-01. -/
def Date.toordinal (d : Date) : Nat :=
  daysBeforeYear d.year + daysBeforeMonth d.year d.month + d.day

/-- Difference in days between two dates, as Python `(a - b).days`; CPython
computes it as `a.toordinal() - b.toordinal()`. -/
def Date.subDays (a b : Date) : Int :=
  (a.toordinal : Int) - (b.toordinal : Int)

/-- A UTC instant: its calendar date plus an opaque within-day component
(the handlers only ever take the date part of an instant, compare whole
instants for storage, or sort; `tod` stands for the time of day). -/
structure Datetime where
  date : Date
  tod : Nat
deriving DecidableEq, Repr

/-- A challenge record of the static seed catalog (`SEED_CHALLENGES` entries
in main.py; `_id`, `title`, `description`, `mood`, `environment`,
`confidence`). -/
structure Challenge where
  id : String
  title : String
  description : String
  mood : String
  environment : String
  confidence : Int
deriving DecidableEq, Repr

/-- The static seed catalog `SEED_CHALLENGES` of main.py, in its source
order. -/
def SEED_CHALLENGES : List Challenge :=
  [ { id := "c1", title := "Give someone a genuine compliment",
      description := "Keep it specific and sincere.",
      mood := "social", environment := "public", confidence := 2 },
    { id := "c2", title := "Ask a stranger about their favorite food",
      description := "If you are shy, try a barista or cashier.",
      mood := "social", environment := "public", confidence := 3 },
    { id := "c3", title := "Sit alone at a cafe and smile at someone nearby",
      description := "A gentle moment of openness.",
      mood := "solo", environment := "public", confidence := 1 },
    { id := "c4", title := "Send a kind message to a friend",
      description := "Low-pressure, high-warmth.",
      mood := "uplifting", environment := "home", confidence := 1 } ]

/-- The request body of POST /challenge/next (`ChallengeFilter` in main.py):
all four constraints optional.  The mood and environment fields are plain
optional strings there (not restricted to the schema enums). -/
structure ChallengeFilter where
  mood : Option String
  environment : Option String
  confidence_min : Option Int
  confidence_max : Option Int
deriving DecidableEq, Repr

/-- One step `if filters.mood: candidates = [c for c in candidates if
c[tag] == filters.mood]` of main.py (same shape for environment).  Python
truthiness makes both None and the empty string skip the filter. -/
def applyTagFilter (tag : Challenge → String) (mo : Option String)
    (cs : List Challenge) : List Challenge :=
  match mo with
  | none => cs
  | some m => if m == "" then cs else cs.filter (fun c => tag c == m)

/-- The step `if filters.confidence_min is not None: candidates =
[c for c in candidates if c["confidence"] >= filters.confidence_min]`. -/
def applyMinFilter (k : Option Int) (cs : List Challenge) : List Challenge :=
  match k with
  | none => cs
  | some m => cs.filter (fun c => decide (m ≤ c.confidence))

/-- The step `if filters.confidence_max is not None: candidates =
[c for c in candidates if c["confidence"] <= filters.confidence_max]`. -/
def applyMaxFilter (k : Option Int) (cs : List Challenge) : List Challenge :=
  match k with
  | none => cs
  | some m => cs.filter (fun c => decide (c.confidence ≤ m))

/-- The candidate list computed by `get_next_challenge` in main.py, applying
the four filter steps to `SEED_CHALLENGES` in source order. -/
def candidatesFor (filters : ChallengeFilter) : List Challenge :=
  applyMaxFilter filters.confidence_max
    (applyMinFilter filters.confidence_min
      (applyTagFilter Challenge.environment filters.environment
        (applyTagFilter Challenge.mood filters.mood SEED_CHALLENGES)))

/-- An HTTPException raised by a handler: status code and detail string. -/
structure HTTPError where
  status : Nat
  detail : String
deriving DecidableEq, Repr

/-- POST /challenge/next (`get_next_challenge` in main.py): filter the seed
list; 404 when nothing is left; otherwise pick index
`datetime.now(timezone.utc).toordinal() % len(candidates)`.  The current UTC
date is the explicit parameter `today`. -/
def get_next_challenge (today : Date) (filters : ChallengeFilter) :
    Except HTTPError Challenge :=
  match candidatesFor filters with
  | [] => Except.error { status := 404, detail := "No challenges match those filters yet" }
  | c :: rest =>
      Except.ok ((c :: rest).get
        ⟨today.toordinal % (c :: rest).length,
         Nat.mod_lt _ (Nat.succ_pos rest.length)⟩)

/-- Claim-side predicate for C4: the challenge satisfies every provided
constraint, where a constraint counts as provided whenever the optional
field is present. -/
def satisfiesProvided (filters : ChallengeFilter) (c : Challenge) : Bool :=
  (match filters.mood with
   | none => true
   | some m => c.mood == m) &&
  (match filters.environment with
   | none => true
   | some e => c.environment == e) &&
  (match filters.confidence_min with
   | none => true
   | some k => decide (k ≤ c.confidence)) &&
  (match filters.confidence_max with
   | none => true
   | some k => decide (c.confidence ≤ k))

/-- The constraint predicate the code actually enforces: like
`satisfiesProvided`, except that an empty-string mood or environment is
treated as not provided (Python truthiness skips those two filter steps). -/
def satisfiesEffective (filters : ChallengeFilter) (c : Challenge) : Bool :=
  (match filters.mood with
   | none => true
   | some m => m == "" || c.mood == m) &&
  (match filters.environment with
   | none => true
   | some e => e == "" || c.environment == e) &&
  (match filters.confidence_min with
   | none => true
   | some k => decide (k ≤ c.confidence)) &&
  (match filters.confidence_max with
   | none => true
   | some k => decide (c.confidence ≤ k))

theorem applyTagFilter_eq_filter (tag : Challenge → String) (mo : Option String)
    (cs : List Challenge) :
    applyTagFilter tag mo cs =
      cs.filter (fun c =>
        match mo with
        | none => true
        | some m => m == "" || tag c == m) := by
  cases mo with
  | none => simp [applyTagFilter]
  | some m =>
      by_cases h : m = ""
      · subst h; simp [applyTagFilter]
      · have hm : (m == "") = false := by simpa using h
        simp [applyTagFilter, hm]

theorem applyMinFilter_eq_filter (k : Option Int) (cs : List Challenge) :
    applyMinFilter k cs =
      cs.filter (fun c =>
        match k with
        | none => true
        | some m => decide (m ≤ c.confidence)) := by
  cases k <;> simp [applyMinFilter]

theorem applyMaxFilter_eq_filter (k : Option Int) (cs : List Challenge) :
    applyMaxFilter k cs =
      cs.filter (fun c =>
        match k with
        | none => true
        | some m => decide (c.confidence ≤ m)) := by
  cases k <;> simp [applyMaxFilter]

/-- C3: for every UTC date and every filter input with a non-empty candidate
list, the handler returns exactly the candidate at position
(proleptic-Gregorian ordinal of the date, modulo the candidate count) in
filtered order; being a function of the date and the filters alone, it is
the same challenge on every call that day. -/
theorem get_next_challenge_rotation (today : Date) (filters : ChallengeFilter)
    (hne : candidatesFor filters ≠ []) :
    ∃ c : Challenge,
      (candidatesFor filters).get?
          (today.toordinal % (candidatesFor filters).length) = some c ∧
      get_next_challenge today filters = Except.ok c := by
  unfold get_next_challenge
  cases h : candidatesFor filters with
  | nil => exact absurd h hne
  | cons c rest =>
      refine ⟨_, ?_, rfl⟩
      exact List.get?_eq_get _

/-- C4 counterexample: with mood provided as the empty string, the code
skips the mood filter entirely (Python truthiness), so the candidate list is
the whole catalog, while no catalog challenge has mood equal to the empty
string. -/
theorem candidatesFor_provided_counterexample :
    ¬ (candidatesFor ⟨some "", none, none, none⟩ =
        SEED_CHALLENGES.filter (satisfiesProvided ⟨some "", none, none, none⟩)) := by
  decide

/-- C4 amended: the candidate list contains exactly the catalog challenges
satisfying every provided constraint, in catalog order, where an
empty-string mood or environment counts as not provided. -/
theorem candidatesFor_eq_filter_effective (filters : ChallengeFilter) :
    candidatesFor filters = SEED_CHALLENGES.filter (satisfiesEffective filters) := by
  obtain ⟨mo, env, cmin, cmax⟩ := filters
  unfold candidatesFor
  rw [applyTagFilter_eq_filter, applyTagFilter_eq_filter, applyMinFilter_eq_filter,
    applyMaxFilter_eq_filter]
  simp only [List.filter_filter]
  apply List.filter_congr
  intro c _
  unfold satisfiesEffective
  cases mo <;> cases env <;> cases cmin <;> cases cmax <;>
    simp <;>
      simp [Bool.and_comm, Bool.and_left_comm, Bool.and_assoc]

/-- C5: the handler fails with the 404 no-match error exactly when the
candidate list is empty; with a non-empty candidate list it returns a
challenge and never this error. -/
theorem get_next_challenge_no_match (today : Date) (filters : ChallengeFilter) :
    get_next_challenge today filters =
        Except.error { status := 404, detail := "No challenges match those filters yet" } ↔
      candidatesFor filters = [] := by
  unfold get_next_challenge
  cases h : candidatesFor filters <;> simp

/-- A stored user document, with the fields of schemas.User plus the `_id`
assigned at creation.  Documents are created through the User schema
(signup), so every schema field is present; `last_completed_at` is optional
there and `submit_reflection` treats any non-datetime value as absent. -/
structure UserDoc where
  id : String
  name : Option String
  email : Option String
  mode : Option String
  xp : Int
  streak : Int
  last_completed_at : Option Datetime
deriving DecidableEq, Repr

/-- The request body of POST /reflect (`ReflectionRequest` in main.py). -/
structure ReflectionRequest where
  user_id : String
  challenge_id : String
  mood_before : Int
  mood_after : Int
  note : Option String
  is_public : Bool
deriving DecidableEq, Repr

/-- A stored reflection document: the fields of schemas.Reflection plus the
`_id` and UTC `created_at` assigned at creation. -/
structure ReflectionDoc where
  id : String
  user_id : String
  challenge_id : String
  mood_before : Int
  mood_after : Int
  note : Option String
  is_public : Bool
  created_at : Datetime
deriving DecidableEq, Repr

/-- The document store: the `user` and `reflection` collections as lists in
insertion order, plus the counter backing fresh identifier assignment. -/
structure DB where
  users : List UserDoc
  reflections : List ReflectionDoc
  next_id : Nat
deriving DecidableEq, Repr

/-- Mongo `find_one` with an `_id` equality filter on the user collection:
the first stored document whose `_id` matches, if any. -/
def findUser (users : List UserDoc) (uid : String) : Option UserDoc :=
  users.find? (fun u => u.id == uid)

/-- Mongo `update_one` with an `_id` equality filter on the user collection:
rewrite the first matching document with `f`, leave the rest untouched (no
match updates nothing). -/
def updateFirstUser (uid : String) (f : UserDoc → UserDoc) :
    List UserDoc → List UserDoc
  | [] => []
  | u :: us => if u.id == uid then f u :: us else u :: updateFirstUser uid f us

/-- Modelled from the spec: `create_document` (imported from the database
module, whose source is not provided) persists a new document and returns
its identifier — "identifier (assigned at creation)", "created-at (assigned
at creation, UTC)".  Fresh identifiers are modelled as a counter rendered to
a string. -/
def freshId (n : Nat) : String := toString n

/-- POST /reflect (`submit_reflection` in main.py): persist the reflection;
then, if a user document with the given `_id` exists, run the accrual update
on it (5 XP for a repeat completion on the same UTC calendar day, otherwise
10 XP with the streak continued on an exactly-one-day gap and reset to 1
otherwise), refreshing `last_completed_at`; a missing user is silently
ignored.  Returns the new store and the reflection identifier.  The source
reads `datetime.now(timezone.utc)` for `today` and again when writing
`last_completed_at`; both reads are the explicit parameter `now` here (one
transition at one instant, as in the spec's `advance(currentState, nowUtc)`).
The source's first `find_one` with an exists-filter is dead code, immediately
overwritten by the lookup by `_id`. -/
def submit_reflection (payload : ReflectionRequest) (now : Datetime)
    (dbst : DB) : DB × String :=
  let rid := freshId dbst.next_id
  let refDoc : ReflectionDoc :=
    { id := rid, user_id := payload.user_id, challenge_id := payload.challenge_id,
      mood_before := payload.mood_before, mood_after := payload.mood_after,
      note := payload.note, is_public := payload.is_public, created_at := now }
  let db1 : DB :=
    { users := dbst.users, reflections := dbst.reflections ++ [refDoc],
      next_id := dbst.next_id + 1 }
  let today := now.date
  match findUser db1.users payload.user_id with
  | some u =>
      let last_date : Option Date := u.last_completed_at.map Datetime.date
      let gainStreak : Int × Int :=
        if last_date == some today then
          (5, u.streak)
        else
          (10, match last_date with
               | some ld => if Date.subDays today ld == 1 then u.streak + 1 else 1
               | none => 1)
      let users2 := updateFirstUser payload.user_id
        (fun v => { v with last_completed_at := some now, streak := gainStreak.2,
                           xp := v.xp + gainStreak.1 }) db1.users
      ({ db1 with users := users2 }, rid)
  | none => (db1, rid)

theorem findUser_updateFirstUser (uid : String) (f : UserDoc → UserDoc)
    (users : List UserDoc) (u : UserDoc)
    (hfind : findUser users uid = some u) (hid : (f u).id = u.id) :
    findUser (updateFirstUser uid f users) uid = some (f u) := by
  induction users with
  | nil => simp [findUser] at hfind
  | cons v vs ih =>
      by_cases hv : v.id == uid
      · have hvu : v = u := by
          simpa [findUser, List.find?, hv] using hfind
        subst hvu
        have : (f v).id == uid := by
          rw [hid]; exact hv
        simp [updateFirstUser, findUser, List.find?, hv, this]
      · have hfind2 : findUser vs uid = some u := by
          simpa [findUser, List.find?, hv] using hfind
        have hvfalse : (v.id == uid) = false := by
          simpa using hv
        simp [updateFirstUser, findUser, List.find?, hvfalse]
        exact ih hfind2

theorem submit_reflection_found_eq (dbst : DB) (payload : ReflectionRequest)
    (now : Datetime) (u : UserDoc)
    (hfind : findUser dbst.users payload.user_id = some u) :
    findUser (submit_reflection payload now dbst).1.users payload.user_id =
      some { u with
              last_completed_at := some now,
              streak :=
                if u.last_completed_at.map Datetime.date == some now.date then u.streak
                else
                  match u.last_completed_at.map Datetime.date with
                  | some ld => if Date.subDays now.date ld == 1 then u.streak + 1 else 1
                  | none => 1,
              xp := u.xp +
                (if u.last_completed_at.map Datetime.date == some now.date then 5 else 10) } := by
  unfold submit_reflection
  simp only [hfind, apply_ite Prod.snd, apply_ite Prod.fst]
  refine findUser_updateFirstUser _ _ _ u hfind ?_
  rfl

/-- C1: when the stored last-completed instant falls on the same UTC calendar
date as the current instant, one submit_reflection transition with the user
found adds exactly 5 XP, leaves the streak value unchanged, and still
refreshes last_completed_at to the current UTC instant. -/
theorem submit_reflection_same_day (dbst : DB) (payload : ReflectionRequest)
    (now : Datetime) (u : UserDoc) (lc : Datetime)
    (hfind : findUser dbst.users payload.user_id = some u)
    (hlast : u.last_completed_at = some lc)
    (hday : lc.date = now.date) :
    ∃ u2 : UserDoc,
      findUser (submit_reflection payload now dbst).1.users payload.user_id = some u2 ∧
      u2.xp = u.xp + 5 ∧ u2.streak = u.streak ∧ u2.last_completed_at = some now := by
  have hcond : (u.last_completed_at.map Datetime.date == some now.date) = true := by
    simp [hlast, hday]
  refine ⟨_, submit_reflection_found_eq dbst payload now u hfind, ?_, ?_, rfl⟩
  · simp [hcond]
  · simp [hcond]

/-- C2: when the stored last-completed date differs from the current UTC
calendar date (including no prior completion), one submit_reflection
transition with the user found adds exactly 10 XP, and the new streak is the
old streak plus one when the last-completed date is exactly one calendar day
before today, and exactly 1 otherwise; last_completed_at is refreshed. -/
theorem submit_reflection_new_day (dbst : DB) (payload : ReflectionRequest)
    (now : Datetime) (u : UserDoc)
    (hfind : findUser dbst.users payload.user_id = some u)
    (hday : u.last_completed_at.map Datetime.date ≠ some now.date) :
    ∃ u2 : UserDoc,
      findUser (submit_reflection payload now dbst).1.users payload.user_id = some u2 ∧
      u2.xp = u.xp + 10 ∧
      u2.streak =
        (match u.last_completed_at with
         | some lc => if Date.subDays now.date lc.date = 1 then u.streak + 1 else 1
         | none => 1) ∧
      u2.last_completed_at = some now := by
  have hcond : (u.last_completed_at.map Datetime.date == some now.date) = false := by
    simpa using hday
  refine ⟨_, submit_reflection_found_eq dbst payload now u hfind, ?_, ?_, rfl⟩
  · simp [hcond]
  · simp only [hcond, Bool.false_eq_true, if_false]
    cases u.last_completed_at with
    | none => rfl
    | some lc => simp [beq_iff_eq]

/-- C8: when no stored user matches the request's user identifier,
submit_reflection still persists the reflection document and returns its
identifier, while the user collection is left entirely unchanged (accrual is
silently skipped; the transition is total, raising no error). -/
theorem submit_reflection_user_missing (dbst : DB) (payload : ReflectionRequest)
    (now : Datetime)
    (hfind : findUser dbst.users payload.user_id = none) :
    (submit_reflection payload now dbst).1.users = dbst.users ∧
    (submit_reflection payload now dbst).1.reflections =
      dbst.reflections ++
        [{ id := freshId dbst.next_id, user_id := payload.user_id,
           challenge_id := payload.challenge_id, mood_before := payload.mood_before,
           mood_after := payload.mood_after, note := payload.note,
           is_public := payload.is_public, created_at := now }] ∧
    (submit_reflection payload now dbst).2 = freshId dbst.next_id := by
  unfold submit_reflection
  simp [hfind]

/-- C9: one accrual transition with the user found strictly increases xp (by
the positive gain), and starting from a non-negative streak the new streak is
non-negative and is either unchanged, incremented by one, or exactly 1. -/
theorem submit_reflection_accrual_invariant (dbst : DB) (payload : ReflectionRequest)
    (now : Datetime) (u : UserDoc)
    (hfind : findUser dbst.users payload.user_id = some u)
    (hstreak : 0 ≤ u.streak) :
    ∃ u2 : UserDoc,
      findUser (submit_reflection payload now dbst).1.users payload.user_id = some u2 ∧
      u.xp < u2.xp ∧ 0 ≤ u2.streak ∧
      (u2.streak = u.streak ∨ u2.streak = u.streak + 1 ∨ u2.streak = 1) := by
  refine ⟨_, submit_reflection_found_eq dbst payload now u hfind, ?_, ?_, ?_⟩
  · dsimp only
    split <;> omega
  · dsimp only
    split
    · exact hstreak
    · cases hmd : u.last_completed_at.map Datetime.date with
      | none => dsimp only; omega
      | some ld => split <;> omega
  · dsimp only
    split
    · omega
    · cases hmd : u.last_completed_at.map Datetime.date with
      | none => dsimp only; omega
      | some ld => split <;> omega

/-- A badge definition of the static `BADGES` list in main.py. -/
structure Badge where
  id : String
  name : String
  requirement : Int
deriving DecidableEq, Repr

/-- The static badge catalog `BADGES` of main.py, in its source order. -/
def BADGES : List Badge :=
  [ { id := "first", name := "First Step", requirement := 1 },
    { id := "week1", name := "Week One", requirement := 7 },
    { id := "streak5", name := "On a Roll", requirement := 5 } ]

/-- The badge list computed by `get_profile` in main.py:
`[b for b in BADGES if xp >= b["requirement"] or streak >= b["requirement"]]`. -/
def computeBadges (xp streak : Int) : List Badge :=
  BADGES.filter (fun b => decide (b.requirement ≤ xp) || decide (b.requirement ≤ streak))

/-- Newest-first ordering used by Mongo `.sort("created_at", -1)` on stored
reflections: `a` may come before `b` when `a` was created at the same instant
or later. -/
def createdDescLe (a b : ReflectionDoc) : Bool :=
  decide (b.created_at.date.toordinal < a.created_at.date.toordinal) ||
  (decide (a.created_at.date.toordinal = b.created_at.date.toordinal) &&
   decide (b.created_at.tod ≤ a.created_at.tod))

theorem createdDescLe_trans (a b c : ReflectionDoc)
    (hab : createdDescLe a b) (hbc : createdDescLe b c) : createdDescLe a c := by
  simp only [createdDescLe, Bool.or_eq_true, Bool.and_eq_true, decide_eq_true_eq] at *
  omega

theorem createdDescLe_total (a b : ReflectionDoc) :
    createdDescLe a b || createdDescLe b a := by
  simp only [createdDescLe, Bool.or_eq_true, Bool.and_eq_true, decide_eq_true_eq]
  omega

/-- A recent-reflection entry of the profile view (the projection built in
`get_profile`). -/
structure RecentReflection where
  id : String
  challenge_id : String
  mood_before : Int
  mood_after : Int
  note : Option String
  created_at : Datetime
deriving DecidableEq, Repr

/-- The `user` part of the profile view. -/
structure ProfileUser where
  id : String
  name : Option String
  mode : Option String
  xp : Int
  streak : Int
deriving DecidableEq, Repr

/-- The response of GET /user/id/profile. -/
structure ProfileView where
  user : ProfileUser
  badges : List Badge
  recent_reflections : List RecentReflection
deriving DecidableEq, Repr

/-- GET /user/id/profile (`get_profile` in main.py): 404 when no user
document matches; otherwise compute the badge list from xp and streak, load
the user's reflections newest-first capped at 5, and project everything into
the profile view. -/
def get_profile (dbst : DB) (user_id : String) : Except HTTPError ProfileView :=
  match findUser dbst.users user_id with
  | none => Except.error { status := 404, detail := "User not found" }
  | some u =>
      let refs := ((dbst.reflections.filter
          (fun r => r.user_id == user_id)).mergeSort createdDescLe).take 5
      Except.ok
        { user := { id := user_id, name := u.name, mode := u.mode,
                    xp := u.xp, streak := u.streak },
          badges := computeBadges u.xp u.streak,
          recent_reflections := refs.map (fun r =>
            { id := r.id, challenge_id := r.challenge_id,
              mood_before := r.mood_before, mood_after := r.mood_after,
              note := r.note, created_at := r.created_at }) }

/-- A public-feed entry of GET /gallery (the projection built in
`gallery`). -/
structure GalleryItem where
  id : String
  challenge_id : String
  note : Option String
  mood_after : Int
  created_at : Datetime
deriving DecidableEq, Repr

/-- Mongo cursor limit semantics, as used through pymongo: `limit(0)` means
no limit at all; a negative limit returns at most its absolute value (a
single batch); a positive limit caps the result count. -/
def mongoLimit (n : Int) (l : List α) : List α :=
  if n = 0 then l else l.take n.natAbs

/-- GET /gallery (`gallery` in main.py): public reflections, newest-first,
with cursor limit `min(limit, 50)`, projected into feed entries. -/
def gallery (lim : Int) (dbst : DB) : List GalleryItem :=
  let docs := mongoLimit (min lim 50)
    ((dbst.reflections.filter (fun r => r.is_public)).mergeSort createdDescLe)
  docs.map (fun d =>
    { id := d.id, challenge_id := d.challenge_id, note := d.note,
      mood_after := d.mood_after, created_at := d.created_at })

/-- The collection key used by the handlers' `_id` filters. -/
def idKey : String := "_id"

/-- A fresh document produced by `db.get_default_codec_options().document_class()`
in `set_mode`: pymongo's default document_class is `dict`, so this is a fresh
empty mapping, modelled as an empty key-value list. -/
def defaultDocumentClassNew : List (String × String) := []

/-- Python `d.get(key, default)` on such a mapping. -/
def dictGet (d : List (String × String)) (k dflt : String) : String :=
  match d.find? (fun kv => kv.1 == k) with
  | some kv => kv.2
  | none => dflt

/-- POST /user/id/mode (`set_mode` in main.py): update_one on the user
collection with the filter value
`db.get_default_codec_options().document_class().get("_id", user_id)`,
setting the mode field. -/
def set_mode (user_id mode : String) (dbst : DB) : DB :=
  let filterId := dictGet defaultDocumentClassNew idKey user_id
  { dbst with
     users := updateFirstUser filterId (fun u => { u with mode := some mode }) dbst.users }

/-- Claim-side operation for C10: the straightforward update of the single
document whose _id equals the given user identifier, setting only its mode
field. -/
def set_mode_direct (user_id mode : String) (dbst : DB) : DB :=
  { dbst with
     users := updateFirstUser user_id (fun u => { u with mode := some mode }) dbst.users }

/-- C6: for a stored user with non-negative xp and streak, the profile's
badge list contains a badge definition exactly when xp or streak reaches its
requirement threshold (inclusive-or, inclusive comparisons), and it is a
sublist of the badge catalog, hence in catalog-definition order. -/
theorem get_profile_badges (dbst : DB) (uid : String) (u : UserDoc)
    (hfind : findUser dbst.users uid = some u)
    (_hxp : 0 ≤ u.xp) (_hstreak : 0 ≤ u.streak) :
    ∃ p : ProfileView, get_profile dbst uid = Except.ok p ∧
      (∀ b : Badge, b ∈ p.badges ↔
        b ∈ BADGES ∧ (b.requirement ≤ u.xp ∨ b.requirement ≤ u.streak)) ∧
      p.badges.Sublist BADGES := by
  unfold get_profile
  rw [hfind]
  refine ⟨_, rfl, ?_, ?_⟩
  · intro b
    simp [computeBadges, List.mem_filter]
  · exact List.filter_sublist _

/-- C7 counterexample: with requested limit 0 the claimed cap min(0, 50) = 0
is violated — `min(0, 50)` is 0 and pymongo's `limit(0)` means no limit, so a
store holding one public reflection yields one gallery record, not zero. -/
theorem gallery_cap_counterexample :
    ¬ (((gallery 0 ⟨[], [⟨"r1", "u1", "c1", 3, 4, none, true, ⟨⟨2024, 1, 5⟩, 0⟩⟩], 1⟩).length : Int)
        ≤ min (0 : Int) 50) := by
  intro h
  simp [gallery, mongoLimit, List.length_mergeSort] at h

/-- C7 amended: for every requested limit of at least 1, the gallery returns
at most min(limit, 50) records, each drawn from a stored public reflection,
ordered newest-first by creation time. -/
theorem gallery_cap (lim : Int) (dbst : DB) (hpos : 1 ≤ lim) :
    ((gallery lim dbst).length : Int) ≤ min lim 50 ∧
    (∀ x ∈ gallery lim dbst, ∃ r, r ∈ dbst.reflections ∧ r.is_public = true ∧
        x = { id := r.id, challenge_id := r.challenge_id, note := r.note,
              mood_after := r.mood_after, created_at := r.created_at }) ∧
    (gallery lim dbst).Pairwise (fun a b =>
      b.created_at.date.toordinal < a.created_at.date.toordinal ∨
      (a.created_at.date.toordinal = b.created_at.date.toordinal ∧
       b.created_at.tod ≤ a.created_at.tod)) := by
  have hne : ¬ (min lim 50 = 0) := by
    rcases le_total lim 50 with h | h
    · rw [min_eq_left h]; omega
    · rw [min_eq_right h]; omega
  refine ⟨?_, ?_, ?_⟩
  · have hlen : (gallery lim dbst).length ≤ (min lim 50).natAbs := by
      simp only [gallery, mongoLimit, hne, if_false, List.length_map]
      exact (List.length_take_le _ _)
    have habs : ((min lim 50).natAbs : Int) = min lim 50 :=
      Int.natAbs_of_nonneg (by
        rcases le_total lim 50 with h | h
        · rw [min_eq_left h]; omega
        · rw [min_eq_right h]; omega)
    omega
  · intro x hx
    simp only [gallery, mongoLimit, hne, if_false, List.mem_map] at hx
    obtain ⟨d, hd, hproj⟩ := hx
    have hd2 : d ∈ (dbst.reflections.filter (fun r => r.is_public)).mergeSort createdDescLe :=
      List.take_subset _ _ hd
    rw [List.mem_mergeSort] at hd2
    rw [List.mem_filter] at hd2
    exact ⟨d, hd2.1, hd2.2, hproj.symm⟩
  · have hsorted : ((dbst.reflections.filter
        (fun r => r.is_public)).mergeSort createdDescLe).Pairwise
          (fun a b => createdDescLe a b = true) :=
      List.sorted_mergeSort
        (fun a b c => createdDescLe_trans a b c) (fun a b => createdDescLe_total a b) _
    have htake : (((dbst.reflections.filter
        (fun r => r.is_public)).mergeSort createdDescLe).take
          (min lim 50).natAbs).Pairwise (fun a b => createdDescLe a b = true) :=
      List.Pairwise.sublist (List.take_sublist _ _) hsorted
    simp only [gallery, mongoLimit, hne, if_false]
    rw [List.pairwise_map]
    refine htake.imp ?_
    intro a b hab
    simpa [createdDescLe, Bool.or_eq_true, Bool.and_eq_true, decide_eq_true_eq] using hab

/-- C10: the filter value `db.get_default_codec_options().document_class().get("_id", user_id)`
built by set_mode is always the user identifier itself (a fresh default
document is an empty dict with no "_id" key), so set_mode coincides with the
straightforward update of the document whose _id is the given identifier,
setting only its mode field. -/
theorem set_mode_refines (user_id mode : String) (dbst : DB) :
    dictGet defaultDocumentClassNew idKey user_id = user_id ∧
    set_mode user_id mode dbst = set_mode_direct user_id mode dbst := by
  exact ⟨rfl, rfl⟩

/-- Sample user identifier for concrete instantiations. -/
def uidAlice : String := "u1"

/-- Sample instant on 2024-01-05, 10:00 UTC. -/
def lastJan5 : Datetime := ⟨⟨2024, 1, 5⟩, 36000⟩

/-- Sample instant on 2024-01-05, 23:00 UTC. -/
def nowJan5 : Datetime := ⟨⟨2024, 1, 5⟩, 82800⟩

/-- Sample instant on 2024-01-06, 09:00 UTC. -/
def nowJan6 : Datetime := ⟨⟨2024, 1, 6⟩, 32400⟩

/-- Sample instant on 2024-01-09, 00:00 UTC. -/
def nowJan9 : Datetime := ⟨⟨2024, 1, 9⟩, 0⟩

/-- Sample stored user: 20 xp, streak 3, last completed 2024-01-05. -/
def userAlice : UserDoc :=
  { id := uidAlice, name := none, email := none, mode := none,
    xp := 20, streak := 3, last_completed_at := some lastJan5 }

/-- Sample stored public reflection. -/
def reflPublic : ReflectionDoc :=
  { id := "r1", user_id := uidAlice, challenge_id := "c1", mood_before := 3,
    mood_after := 4, note := none, is_public := true,
    created_at := ⟨⟨2024, 1, 4⟩, 100⟩ }

/-- Sample stored private reflection. -/
def reflPrivate : ReflectionDoc :=
  { id := "r2", user_id := uidAlice, challenge_id := "c4", mood_before := 2,
    mood_after := 5, note := none, is_public := false,
    created_at := ⟨⟨2024, 1, 5⟩, 200⟩ }

/-- Sample store holding the user and the two reflections. -/
def dbSample : DB :=
  { users := [userAlice], reflections := [reflPublic, reflPrivate], next_id := 7 }

/-- Sample reflection request from the stored user. -/
def payloadSample : ReflectionRequest :=
  { user_id := uidAlice, challenge_id := "c2", mood_before := 2, mood_after := 4,
    note := none, is_public := false }

/-- Sample reflection request naming a user that is not stored. -/
def payloadGhost : ReflectionRequest :=
  { user_id := "nobody", challenge_id := "c2", mood_before := 2, mood_after := 4,
    note := none, is_public := false }

/-- Witness for C1 at a concrete input: repeat completion late on 2024-01-05
after a 10:00 completion the same day. -/
theorem submit_reflection_same_day_witness :
    (findUser dbSample.users payloadSample.user_id = some userAlice ∧
     userAlice.last_completed_at = some lastJan5 ∧ lastJan5.date = nowJan5.date) ∧
    (∃ u2 : UserDoc,
      findUser (submit_reflection payloadSample nowJan5 dbSample).1.users
          payloadSample.user_id = some u2 ∧
      u2.xp = userAlice.xp + 5 ∧ u2.streak = userAlice.streak ∧
      u2.last_completed_at = some nowJan5) :=
  ⟨⟨by decide, by decide, by decide⟩,
   submit_reflection_same_day dbSample payloadSample nowJan5 userAlice lastJan5
     (by decide) (by decide) (by decide)⟩

/-- Witness for C2 at a concrete input: completion on 2024-01-06 after a
2024-01-05 completion (continuing streak from 3 to 4). -/
theorem submit_reflection_new_day_witness :
    (findUser dbSample.users payloadSample.user_id = some userAlice ∧
     userAlice.last_completed_at.map Datetime.date ≠ some nowJan6.date) ∧
    (∃ u2 : UserDoc,
      findUser (submit_reflection payloadSample nowJan6 dbSample).1.users
          payloadSample.user_id = some u2 ∧
      u2.xp = userAlice.xp + 10 ∧
      u2.streak =
        (match userAlice.last_completed_at with
         | some lc => if Date.subDays nowJan6.date lc.date = 1 then userAlice.streak + 1 else 1
         | none => 1) ∧
      u2.last_completed_at = some nowJan6) :=
  ⟨⟨by decide, by decide⟩,
   submit_reflection_new_day dbSample payloadSample nowJan6 userAlice
     (by decide) (by decide)⟩

/-- Witness for C3 at a concrete input: no filters, 2024-01-05 (ordinal
738890, 738890 mod 4 = 2). -/
theorem get_next_challenge_rotation_witness :
    (candidatesFor ⟨none, none, none, none⟩ ≠ []) ∧
    (∃ c : Challenge,
      (candidatesFor ⟨none, none, none, none⟩).get?
          ((⟨2024, 1, 5⟩ : Date).toordinal %
            (candidatesFor ⟨none, none, none, none⟩).length) = some c ∧
      get_next_challenge ⟨2024, 1, 5⟩ ⟨none, none, none, none⟩ = Except.ok c) :=
  ⟨by decide,
   get_next_challenge_rotation ⟨2024, 1, 5⟩ ⟨none, none, none, none⟩ (by decide)⟩

/-- Witness for C6 at a concrete input: xp 20 and streak 3 grant the badges
with thresholds 1 and 5 but not 7. -/
theorem get_profile_badges_witness :
    (findUser dbSample.users uidAlice = some userAlice ∧
     0 ≤ userAlice.xp ∧ 0 ≤ userAlice.streak) ∧
    (∃ p : ProfileView, get_profile dbSample uidAlice = Except.ok p ∧
      (∀ b : Badge, b ∈ p.badges ↔
        b ∈ BADGES ∧ (b.requirement ≤ userAlice.xp ∨ b.requirement ≤ userAlice.streak)) ∧
      p.badges.Sublist BADGES) :=
  ⟨⟨by decide, by decide, by decide⟩,
   get_profile_badges dbSample uidAlice userAlice (by decide) (by decide) (by decide)⟩

/-- Witness for C7 at a concrete input: requested limit 1000 against the
sample store. -/
theorem gallery_cap_witness :
    ((1 : Int) ≤ 1000) ∧
    (((gallery 1000 dbSample).length : Int) ≤ min 1000 50 ∧
     (∀ x ∈ gallery 1000 dbSample, ∃ r, r ∈ dbSample.reflections ∧ r.is_public = true ∧
        x = { id := r.id, challenge_id := r.challenge_id, note := r.note,
              mood_after := r.mood_after, created_at := r.created_at }) ∧
     (gallery 1000 dbSample).Pairwise (fun a b =>
        b.created_at.date.toordinal < a.created_at.date.toordinal ∨
        (a.created_at.date.toordinal = b.created_at.date.toordinal ∧
         b.created_at.tod ≤ a.created_at.tod))) :=
  ⟨by decide, gallery_cap 1000 dbSample (by decide)⟩

/-- Witness for C8 at a concrete input: submitting a reflection for an
unknown user leaves the user collection unchanged and still stores the
reflection. -/
theorem submit_reflection_user_missing_witness :
    (findUser dbSample.users payloadGhost.user_id = none) ∧
    ((submit_reflection payloadGhost nowJan6 dbSample).1.users = dbSample.users ∧
     (submit_reflection payloadGhost nowJan6 dbSample).1.reflections =
       dbSample.reflections ++
         [{ id := freshId dbSample.next_id, user_id := payloadGhost.user_id,
            challenge_id := payloadGhost.challenge_id,
            mood_before := payloadGhost.mood_before,
            mood_after := payloadGhost.mood_after, note := payloadGhost.note,
            is_public := payloadGhost.is_public, created_at := nowJan6 }] ∧
     (submit_reflection payloadGhost nowJan6 dbSample).2 = freshId dbSample.next_id) :=
  ⟨by decide,
   submit_reflection_user_missing dbSample payloadGhost nowJan6 (by decide)⟩

/-- Witness for C9 at a concrete input: completion on 2024-01-09 after a
2024-01-05 completion (gap, streak resets to 1, xp grows). -/
theorem submit_reflection_accrual_invariant_witness :
    (findUser dbSample.users payloadSample.user_id = some userAlice ∧
     0 ≤ userAlice.streak) ∧
    (∃ u2 : UserDoc,
      findUser (submit_reflection payloadSample nowJan9 dbSample).1.users
          payloadSample.user_id = some u2 ∧
      userAlice.xp < u2.xp ∧ 0 ≤ u2.streak ∧
      (u2.streak = userAlice.streak ∨ u2.streak = userAlice.streak + 1 ∨
       u2.streak = 1)) :=
  ⟨⟨by decide, by decide⟩,
   submit_reflection_accrual_invariant dbSample payloadSample nowJan9 userAlice
     (by decide) (by decide)⟩

example : Date.toordinal ⟨1, 1, 1⟩ = 1 := by decide

example : Date.toordinal ⟨2024, 1, 5⟩ = 738890 := by decide

example : Date.subDays ⟨2024, 3, 1⟩ ⟨2024, 2, 28⟩ = 2 := by decide

example : Date.subDays ⟨2023, 3, 1⟩ ⟨2023, 2, 28⟩ = 1 := by decide

end Joybait
